import Mathlib

/-!
Verification of the snap-sunbeam Step/Plan orchestration core against its
natural-language specification.  The definitions below are shallow embeddings
of the Python source:

* `sunbeam/commands/question_helper.py` — `Question.calculate_default`,
  `Question.ask`, `load_answers`, `write_answers`;
* `sunbeam/commands/configure.py` and `sunbeam/commands/bootstrap.py` —
  the plan-runner loops;
* `sunbeam/commands/ohv.py` — the reconciliation steps
  (`UpdateIdentityServiceConfigStep.is_skip`, `UpdateRabbitMQConfigStep.is_skip`,
  `UpdateNetworkConfigStep.is_skip`, and the shared `run` shape).

Python dynamic values that the resolution chain inspects for truthiness are
modelled by `PyVal`; a Python function-valued attribute such as
`default_function` is modelled by `Option PyVal` (`some v` stands for a
callable that returns `v`, `none` for the attribute being `None`), and the
number of times it is invoked is reported explicitly.  Interactive input
(rich `Prompt.ask` / `Confirm.ask`) is modelled by an oracle value
`user_response` standing for whatever the prompt call returns.
-/

namespace Sunbeam

/-- A Python scalar value as inspected by the answer-resolution chain. -/
inductive PyVal where
  | none
  | bool (b : Bool)
  | int (n : Int)
  | str (s : String)
deriving DecidableEq

/-- Python truthiness of a `PyVal`: `None`, `False`, `0` and the empty
string are falsy, everything else is truthy. -/
def truthy : PyVal → Bool
  | PyVal.none => false
  | PyVal.bool b => b
  | PyVal.int n => decide (n ≠ 0)
  | PyVal.str s => decide (s ≠ "")

/-- State of a `Question` instance (question_helper.py lines 15-43).
`default_function = some v` models a callable attribute returning `v`;
`none` models the attribute being `None`. -/
structure Question where
  question : String
  preseed : PyVal := PyVal.none
  previous_answer : PyVal := PyVal.none
  default_function : Option PyVal := Option.none
  default_value : PyVal := PyVal.none
  accept_defaults : Bool := false
  answer : PyVal := PyVal.none
deriving DecidableEq

/-- Side effects of one `ask` call: how often `default_function` was invoked
and how often the interactive question function was invoked. -/
structure AskEffects where
  fnCalls : Nat
  promptCalls : Nat
deriving DecidableEq

/-- Embedding of `Question.calculate_default` (question_helper.py lines
48-69).  Returns the computed default together with the number of
`default_function` invocations.  The source tests each candidate with
Python truthiness, except `default_function`, whose presence (not its
result) is tested. -/
def calculate_default (q : Question) (new_default : PyVal := PyVal.none) :
    PyVal × Nat :=
  if truthy q.previous_answer then (q.previous_answer, 0)
  else if truthy new_default then (new_default, 0)
  else
    match q.default_function with
    | some v => (v, 1)
    | Option.none =>
        if truthy q.default_value then (q.default_value, 0) else (PyVal.none, 0)

/-- Embedding of `Question.ask` (question_helper.py lines 71-95).  The
returned triple is the value returned by `ask`, the updated instance
(the `answer` attribute is assigned), and the side effects.  When the
interactive branch is taken, the value returned by the question function
is modelled by the oracle `user_response`. -/
def ask (q : Question) (new_default : PyVal := PyVal.none)
    (user_response : PyVal := PyVal.none) : PyVal × Question × AskEffects :=
  if truthy q.preseed then
    (q.preseed, { q with answer := q.preseed }, ⟨0, 0⟩)
  else
    let dc := calculate_default q new_default
    if q.accept_defaults then
      (dc.1, { q with answer := dc.1 }, ⟨dc.2, 0⟩)
    else
      (user_response, { q with answer := user_response }, ⟨dc.2, 1⟩)

/-- One section of the answer store: question-key to resolved value. -/
abbrev AnswerSection := List (String × PyVal)

/-- The answer store: section name to section contents, as held in the
terraform.tfvars.json answer file. -/
abbrev AnswerStore := List (String × AnswerSection)

/-- Embedding of `load_answers` (question_helper.py lines 203-210).  The
disk state is `some store` when the answer file exists with the given
parsed contents, `none` when the file is absent; an absent file yields the
empty mapping. -/
def load_answers (disk : Option AnswerStore) : AnswerStore :=
  match disk with
  | some store => store
  | Option.none => []

/-- The answer file after a write: its parsed contents and its permission
bits (the octal mode passed to fchmod). -/
structure WrittenFile where
  contents : AnswerStore
  mode : Nat
deriving DecidableEq

/-- Embedding of `write_answers` (question_helper.py lines 213-219): the
file is opened in mode w (truncating), fchmod sets mode 0o640, and
json.dumps(answers) is written — the previous disk state is not read. -/
def write_answers (answers : AnswerStore) (disk : Option AnswerStore) :
    WrittenFile :=
  { contents := answers, mode := 0o640 }

/-- The tri-state outcome kind (jobs/common.py lines 33-36). -/
inductive ResultType where
  | completed
  | failed
  | skipped
deriving DecidableEq

/-- The Result of running a step (jobs/common.py lines 39-52). -/
structure Result where
  result_type : ResultType
  message : String := ""
deriving DecidableEq

/-- A plan step as the runner loops observe it: its name, whether
has_prompts() returns true, what is_skip() returns, and the Result that
run() produces when invoked. -/
structure PlanStep where
  name : String
  has_prompts : Bool := false
  is_skip : Bool := false
  run_result : Result := { result_type := ResultType.completed }
deriving DecidableEq

/-- Observable actions of a plan-runner loop, in order: a step prompt
invocation, an is_skip invocation, the skip report, a run invocation, and
the success or failure report. -/
inductive Ev where
  | prompted (name : String)
  | skipChecked (name : String)
  | skippedStep (name : String)
  | ran (name : String)
  | completedStep (name : String)
  | failedStep (name : String) (message : String)
deriving DecidableEq

/-- Embedding of the configure plan-runner loop (configure.py lines
400-424): for each step, prompt is invoked first whenever has_prompts()
is true, then is_skip(); a skipped step is reported done and the loop
continues; otherwise run() is invoked and a Failed result aborts the loop,
raising click.ClickException with the result message (modelled by the
`some message` outcome). -/
def runConfigurePlan : List PlanStep → List Ev × Option String
  | [] => ([], Option.none)
  | s :: rest =>
    let pre := if s.has_prompts then [Ev.prompted s.name] else []
    if s.is_skip then
      let r := runConfigurePlan rest
      (pre ++ Ev.skipChecked s.name :: Ev.skippedStep s.name :: r.1, r.2)
    else
      if s.run_result.result_type = ResultType.failed then
        (pre ++ [Ev.skipChecked s.name, Ev.ran s.name,
                 Ev.failedStep s.name s.run_result.message],
         some s.run_result.message)
      else
        let r := runConfigurePlan rest
        (pre ++ Ev.skipChecked s.name :: Ev.ran s.name ::
            Ev.completedStep s.name :: r.1, r.2)

/-- Embedding of the bootstrap plan-runner loop (bootstrap.py lines
102-121): identical to the configure loop except that prompt is never
invoked. -/
def runBootstrapPlan : List PlanStep → List Ev × Option String
  | [] => ([], Option.none)
  | s :: rest =>
    if s.is_skip then
      let r := runBootstrapPlan rest
      (Ev.skipChecked s.name :: Ev.skippedStep s.name :: r.1, r.2)
    else
      if s.run_result.result_type = ResultType.failed then
        ([Ev.skipChecked s.name, Ev.ran s.name,
          Ev.failedStep s.name s.run_result.message],
         some s.run_result.message)
      else
        let r := runBootstrapPlan rest
        (Ev.skipChecked s.name :: Ev.ran s.name ::
            Ev.completedStep s.name :: r.1, r.2)

/-- The identity section of the hypervisor snap configuration
(ohv_config/config.py IdentityServiceConfig), field values as optional
strings. -/
structure IdentityServiceConfig where
  auth_url : Option String := Option.none
  username : Option String := Option.none
  password : Option String := Option.none
  user_domain_name : Option String := Option.none
  project_name : Option String := Option.none
  project_domain_name : Option String := Option.none
  region_name : Option String := Option.none
deriving DecidableEq

/-- Embedding of `UpdateIdentityServiceConfigStep.is_skip` (ohv.py lines
82-137).  `ar` is the juju action result mapping (get with default None).
Returns the staged configuration object and the skip flag.  The source
compares each declared field with operator.eq and, on inequality, assigns
the action value and clears skip; note that the user-domain-name branch
assigns to the username attribute and the project-domain-name branch
assigns to the project_name attribute, exactly as the source does. -/
def identityIsSkip (c0 : IdentityServiceConfig) (ar : String → Option String) :
    IdentityServiceConfig × Bool :=
  let auth_url := ar "public-endpoint"
  let r1 := if c0.auth_url = auth_url then (c0, true)
            else ({ c0 with auth_url := auth_url }, false)
  let username := ar "username"
  let r2 := if r1.1.username = username then r1
            else ({ r1.1 with username := username }, false)
  let password := ar "password"
  let r3 := if r2.1.password = password then r2
            else ({ r2.1 with password := password }, false)
  let user_domain_name := ar "user-domain-name"
  let r4 := if r3.1.user_domain_name = user_domain_name then r3
            else ({ r3.1 with username := user_domain_name }, false)
  let project_name := ar "project-name"
  let r5 := if r4.1.project_name = project_name then r4
            else ({ r4.1 with project_name := project_name }, false)
  let project_domain_name := ar "project-domain-name"
  let r6 := if r5.1.project_domain_name = project_domain_name then r5
            else ({ r5.1 with project_name := project_domain_name }, false)
  let region_name := ar "region"
  if r6.1.region_name = region_name then r6
  else ({ r6.1 with region_name := region_name }, false)

/-- Embedding of the action-result check loop shared by the ohv run methods
(ohv.py lines 146-148, 212-214, 317-319): each collected action result is
represented by its return-code value (`none` when the key is absent; the
source reads it with default 1); the loop reports an error exactly when
some return-code read as `get` with default 1 equals 1. -/
def checkActionResults : List (Option Int) → Bool
  | [] => false
  | rc :: rest => if rc.getD 1 = 1 then true else checkActionResults rest

/-- Embedding of the shared shape of `UpdateIdentityServiceConfigStep.run`,
`UpdateRabbitMQConfigStep.run` and `UpdateNetworkConfigStep.run` (ohv.py
lines 139-158, 205-224, 310-329).  `applyExc = some e` models the
update call raising an exception with text `e`.  The returned Bool records
whether the staged configuration was submitted to the snap (the update
call was reached). -/
def ohvRun (rcs : List (Option Int)) (applyExc : Option String) :
    Bool × Result :=
  if checkActionResults rcs then
    (false, { result_type := ResultType.failed,
              message := "Juju action returned error" })
  else
    match applyExc with
    | some e => (true, { result_type := ResultType.failed, message := e })
    | Option.none => (true, { result_type := ResultType.completed })

/-- The rabbitmq section of the hypervisor snap configuration
(ohv_config/config.py RabbitMQConfig). -/
structure RabbitMQConfig where
  url : Option String := Option.none
deriving DecidableEq

/-- Embedding of the diff part of `UpdateRabbitMQConfigStep.is_skip`
(ohv.py lines 198-203): the single declared field url is compared with
operator.eq against the url key of the action result; on inequality it is
staged and skip is cleared. -/
def rabbitIsSkip (c : RabbitMQConfig) (ar : String → Option String) :
    RabbitMQConfig × Bool :=
  let url := ar "url"
  if c.url = url then (c, true) else ({ url := url }, false)

/-- The TLS fields of the network section of the hypervisor snap
configuration (ohv_config/config.py NetworkConfig, ovn fields). -/
structure NetworkTls where
  ovn_key : Option String := Option.none
  ovn_cert : Option String := Option.none
  ovn_cacert : Option String := Option.none
deriving DecidableEq

/-- Attribute read by string name, modelling vars(self.config).get(attrib)
in ohv.py line 302. -/
def tlsAttr (c : NetworkTls) (a : String) : Option String :=
  if a = "ovn_key" then c.ovn_key
  else if a = "ovn_cert" then c.ovn_cert
  else if a = "ovn_cacert" then c.ovn_cacert
  else Option.none

/-- Attribute write by string name, modelling setattr(self.config, attrib,
value) in ohv.py line 305. -/
def tlsSetAttr (c : NetworkTls) (a : String) (v : Option String) :
    NetworkTls :=
  if a = "ovn_key" then { c with ovn_key := v }
  else if a = "ovn_cert" then { c with ovn_cert := v }
  else if a = "ovn_cacert" then { c with ovn_cacert := v }
  else c

/-- One iteration of the attribute loop in
`UpdateNetworkConfigStep.is_skip` (ohv.py lines 301-306): compare the snap
value and the action value for one attribute with operator.eq; on
inequality stage the action value and clear skip. -/
def tlsFieldStep (ar : String → Option String) (a : String)
    (st : NetworkTls × Bool) : NetworkTls × Bool :=
  let value_from_snap := tlsAttr st.1 a
  let value_from_action := ar a
  if value_from_snap = value_from_action then st
  else (tlsSetAttr st.1 a value_from_action, false)

/-- The whole attribute loop of `UpdateNetworkConfigStep.is_skip` (ohv.py
lines 301-306), folded over the three declared TLS attributes, starting
from the skip value accumulated by the earlier ovn_sb_connection
comparison. -/
def networkTlsDiff (c : NetworkTls) (ar : String → Option String)
    (skip0 : Bool) : NetworkTls × Bool :=
  List.foldl (fun st a => tlsFieldStep ar a st) (c, skip0)
    ["ovn_key", "ovn_cert", "ovn_cacert"]

/-- Helper: the Python value None is falsy. -/
theorem truthy_none : truthy PyVal.none = false := rfl

/-- Helper: the value returned by ask, isolated from the instance update
and the side effects. -/
theorem ask_val (q : Question) (nd u : PyVal) :
    (ask q nd u).1 =
      if truthy q.preseed then q.preseed
      else if q.accept_defaults then (calculate_default q nd).1 else u := by
  unfold ask
  split
  · rfl
  · simp only
    split
    · rfl
    · rfl

/-- Helper: a falsy new_default leaves calculate_default unchanged. -/
theorem calculate_default_falsy_nd (q : Question) (nd : PyVal)
    (h : truthy nd = false) :
    calculate_default q nd = calculate_default q PyVal.none := by
  simp [calculate_default, h, truthy_none]

end Sunbeam

namespace Sunbeam

/-- Claim C4: answer-resolution precedence law (with accept_defaults set so
no interactive prompt occurs): a truthy preseed is returned regardless of
the other fields; with no preseed but a previous answer set, ask() returns
the previous answer; with neither set, ask(new_default = N) returns N; with
only default_function set, ask() invokes the function exactly once and
returns its result. -/
theorem c4_ask_precedence_law :
    (∀ (q : Question) (nd u : PyVal), truthy q.preseed = true →
      (ask q nd u).1 = q.preseed ∧ (ask q nd u).2.2 = ⟨0, 0⟩) ∧
    (∀ (q : Question) (u : PyVal), truthy q.preseed = false →
      truthy q.previous_answer = true → q.accept_defaults = true →
      (ask q PyVal.none u).1 = q.previous_answer) ∧
    (∀ (q : Question) (n u : PyVal), truthy q.preseed = false →
      truthy q.previous_answer = false → truthy n = true →
      q.accept_defaults = true → (ask q n u).1 = n) ∧
    (∀ (q : Question) (v u : PyVal), truthy q.preseed = false →
      truthy q.previous_answer = false → q.default_function = some v →
      q.accept_defaults = true →
      (ask q PyVal.none u).1 = v ∧ (ask q PyVal.none u).2.2.fnCalls = 1) := by
  refine ⟨?_, ?_, ?_, ?_⟩
  · intro q nd u hp
    simp [ask, hp]
  · intro q u hp hprev ha
    simp [ask, calculate_default, hp, hprev, ha]
  · intro q n u hp hprev hn ha
    simp [ask, calculate_default, hp, hprev, hn, ha]
  · intro q v u hp hprev hf ha
    simp [ask, calculate_default, hp, hprev, hf, ha, truthy_none]

/-- Witness for C4: each precedence case applied at a concrete question. -/
theorem c4_ask_precedence_law_witness :
    (ask { question := "w", preseed := PyVal.str "P",
           previous_answer := PyVal.str "V", default_value := PyVal.str "D",
           accept_defaults := true } PyVal.none PyVal.none).1 = PyVal.str "P" ∧
    (ask { question := "w", previous_answer := PyVal.str "V",
           default_value := PyVal.str "D",
           accept_defaults := true } PyVal.none PyVal.none).1 = PyVal.str "V" ∧
    (ask { question := "w", default_value := PyVal.str "D",
           accept_defaults := true } (PyVal.str "N") PyVal.none).1
      = PyVal.str "N" ∧
    (ask { question := "w", default_function := some (PyVal.str "G"),
           accept_defaults := true } PyVal.none PyVal.none).1 = PyVal.str "G" :=
  ⟨(c4_ask_precedence_law.1 _ _ _ (by decide)).1,
   c4_ask_precedence_law.2.1 _ _ (by decide) (by decide) (by decide),
   c4_ask_precedence_law.2.2.1 _ _ _ (by decide) (by decide) (by decide)
     (by decide),
   (c4_ask_precedence_law.2.2.2 _ _ _ (by decide) (by decide) (by decide)
     (by decide)).1⟩

end Sunbeam

namespace Sunbeam

/-- Claim C3 counterexample: with no preseed, a previous persisted answer V
and a caller-supplied override N at ask-time, ask(new_default = N) returns
V, not N — the previous answer outranks the override, contrary to the
claimed precedence. -/
theorem c3_counterexample :
    (ask { question := "w", previous_answer := PyVal.str "V",
           accept_defaults := true } (PyVal.str "N") PyVal.none).1
        = PyVal.str "V" ∧
    PyVal.str "V" ≠ PyVal.str "N" := by
  decide

/-- Claim C3 amended: resolution ranks the previous persisted answer above
the caller-supplied ask-time override; with no preseed and a truthy
previous answer, ask(new_default = N) resolves to the previous answer
(accept_defaults set so no interactive prompt intervenes). -/
theorem c3_previous_answer_over_new_default (q : Question) (nd u : PyVal)
    (hp : truthy q.preseed = false) (hprev : truthy q.previous_answer = true)
    (ha : q.accept_defaults = true) :
    (ask q nd u).1 = q.previous_answer := by
  simp [ask, calculate_default, hp, hprev, ha]

/-- Witness for the amended C3 theorem at a concrete question. -/
theorem c3_previous_answer_over_new_default_witness :
    (ask { question := "w", previous_answer := PyVal.str "V",
           accept_defaults := true } (PyVal.str "N") PyVal.none).1
      = PyVal.str "V" :=
  c3_previous_answer_over_new_default _ _ _ (by decide) (by decide) (by decide)

/-- Claim C7 counterexample: after a first interactive ask() resolved and
stored "A" in the answer attribute, a second ask() call does not return the
cached "A": it invokes the interactive question function again (one more
prompt) and returns whatever the user now enters ("B"). -/
theorem c7_counterexample :
    ((ask { question := "w" } PyVal.none (PyVal.str "A")).2.1).answer
        = PyVal.str "A" ∧
    (ask ((ask { question := "w" } PyVal.none (PyVal.str "A")).2.1)
        PyVal.none (PyVal.str "B")).1 = PyVal.str "B" ∧
    (ask ((ask { question := "w" } PyVal.none (PyVal.str "A")).2.1)
        PyVal.none (PyVal.str "B")).2.2.promptCalls = 1 ∧
    PyVal.str "B" ≠ PyVal.str "A" := by
  decide

/-- Claim C7 amended: ask() stores its resolved value in the answer
attribute, but never reads it back: every interactive call (no truthy
preseed, accept_defaults false) invokes the question function exactly once,
including repeated calls, so repeated ask() is idempotent only on the
non-interactive paths (truthy preseed, or accept_defaults set). -/
theorem c7_ask_stores_but_never_reads_answer :
    (∀ (q : Question) (nd u : PyVal),
      ((ask q nd u).2.1).answer = (ask q nd u).1) ∧
    (∀ (q : Question) (nd u : PyVal), truthy q.preseed = false →
      q.accept_defaults = false → (ask q nd u).2.2.promptCalls = 1) ∧
    (∀ (q : Question) (nd u1 u2 : PyVal), truthy q.preseed = true →
      (ask ((ask q nd u1).2.1) nd u2).1 = (ask q nd u1).1) ∧
    (∀ (q : Question) (nd u1 u2 : PyVal), truthy q.preseed = false →
      q.accept_defaults = true →
      (ask ((ask q nd u1).2.1) nd u2).1 = (ask q nd u1).1) := by
  refine ⟨?_, ?_, ?_, ?_⟩
  · intro q nd u
    simp only [ask]
    split
    · rfl
    · split
      · rfl
      · rfl
  · intro q nd u hp ha
    simp [ask, hp, ha]
  · intro q nd u1 u2 hp
    simp [ask, hp]
  · intro q nd u1 u2 hp ha
    simp [ask, calculate_default, hp, ha]

/-- Witness for the amended C7 theorem: the caching equation and each
hypothesis-bearing part applied at concrete questions. -/
theorem c7_ask_stores_but_never_reads_answer_witness :
    ((ask { question := "w" } PyVal.none (PyVal.str "A")).2.1).answer
        = (ask { question := "w" } PyVal.none (PyVal.str "A")).1 ∧
    (ask { question := "w" } PyVal.none (PyVal.str "A")).2.2.promptCalls
        = 1 ∧
    (ask ((ask { question := "w", preseed := PyVal.str "P" }
            PyVal.none (PyVal.str "A")).2.1) PyVal.none (PyVal.str "B")).1
      = (ask { question := "w", preseed := PyVal.str "P" }
            PyVal.none (PyVal.str "A")).1 ∧
    (ask ((ask { question := "w", default_value := PyVal.str "D",
                 accept_defaults := true }
            PyVal.none (PyVal.str "A")).2.1) PyVal.none (PyVal.str "B")).1
      = (ask { question := "w", default_value := PyVal.str "D",
               accept_defaults := true } PyVal.none (PyVal.str "A")).1 :=
  ⟨c7_ask_stores_but_never_reads_answer.1 _ _ _,
   c7_ask_stores_but_never_reads_answer.2.1 _ _ _ (by decide) (by decide),
   c7_ask_stores_but_never_reads_answer.2.2.1 _ _ _ _ (by decide),
   c7_ask_stores_but_never_reads_answer.2.2.2 _ _ _ _ (by decide) (by decide)⟩

/-- Claim C10 counterexample: a default_function returning the falsy value
False is not treated as absent — ask() returns False instead of falling
through to the truthy default_value "D". -/
theorem c10_counterexample :
    (ask { question := "w", default_function := some (PyVal.bool false),
           default_value := PyVal.str "D", accept_defaults := true }
        PyVal.none PyVal.none).1 = PyVal.bool false ∧
    PyVal.bool false ≠ PyVal.str "D" := by
  decide

/-- Claim C10 amended: a falsy value held in preseed, previous_answer,
passed as new_default, or set as default_value is treated as absent (the
chain falls through to the next source), but a falsy value returned by
default_function is kept: the truthiness test guards the presence of the
function attribute, not its result. -/
theorem c10_falsy_sources_treated_as_absent :
    (∀ (q : Question) (nd u : PyVal), truthy q.preseed = false →
      (ask q nd u).1 = (ask { q with preseed := PyVal.none } nd u).1) ∧
    (∀ (q : Question) (nd u : PyVal), truthy q.previous_answer = false →
      (ask q nd u).1
        = (ask { q with previous_answer := PyVal.none } nd u).1) ∧
    (∀ (q : Question) (nd u : PyVal), truthy nd = false →
      ask q nd u = ask q PyVal.none u) ∧
    (∀ (q : Question) (nd u : PyVal), truthy q.default_value = false →
      (ask q nd u).1 = (ask { q with default_value := PyVal.none } nd u).1) ∧
    (∀ (q : Question) (nd u v : PyVal), truthy q.preseed = false →
      truthy q.previous_answer = false → truthy nd = false →
      q.accept_defaults = true → q.default_function = some v →
      (ask q nd u).1 = v) := by
  refine ⟨?_, ?_, ?_, ?_, ?_⟩
  · intro q nd u hp
    simp [ask_val, calculate_default, hp, truthy_none]
  · intro q nd u hprev
    simp [ask_val, calculate_default, hprev, truthy_none]
  · intro q nd u hnd
    unfold ask
    rw [calculate_default_falsy_nd q nd hnd]
  · intro q nd u hdv
    simp [ask_val, calculate_default, hdv, truthy_none]
  · intro q nd u v hp hprev hnd ha hf
    simp [ask_val, calculate_default, hp, hprev, hnd, ha, hf]

/-- Witness for the amended C10 theorem: each part applied at a concrete
question with a falsy candidate in the corresponding source. -/
theorem c10_falsy_sources_treated_as_absent_witness :
    (ask { question := "w", preseed := PyVal.bool false,
           default_value := PyVal.str "D", accept_defaults := true }
        PyVal.none PyVal.none).1
      = (ask { question := "w", preseed := PyVal.none,
               default_value := PyVal.str "D", accept_defaults := true }
          PyVal.none PyVal.none).1 ∧
    (ask { question := "w", previous_answer := PyVal.str "",
           default_value := PyVal.str "D", accept_defaults := true }
        PyVal.none PyVal.none).1
      = (ask { question := "w", previous_answer := PyVal.none,
               default_value := PyVal.str "D", accept_defaults := true }
          PyVal.none PyVal.none).1 ∧
    ask { question := "w", default_value := PyVal.str "D",
          accept_defaults := true } (PyVal.int 0) PyVal.none
      = ask { question := "w", default_value := PyVal.str "D",
              accept_defaults := true } PyVal.none PyVal.none ∧
    (ask { question := "w", default_value := PyVal.bool false,
           accept_defaults := true } PyVal.none PyVal.none).1
      = (ask { question := "w", default_value := PyVal.none,
               accept_defaults := true } PyVal.none PyVal.none).1 ∧
    (ask { question := "w", default_function := some (PyVal.str ""),
           accept_defaults := true } PyVal.none PyVal.none).1
      = PyVal.str "" :=
  ⟨c10_falsy_sources_treated_as_absent.1 _ _ _ (by decide),
   c10_falsy_sources_treated_as_absent.2.1 _ _ _ (by decide),
   c10_falsy_sources_treated_as_absent.2.2.1 _ _ _ (by decide),
   c10_falsy_sources_treated_as_absent.2.2.2.1 _ _ _ (by decide),
   c10_falsy_sources_treated_as_absent.2.2.2.2 _ _ _ _ (by decide)
     (by decide) (by decide) (by decide) (by decide)⟩

end Sunbeam

namespace Sunbeam

/-- Claim C1 counterexample: writing the mapping b.y=2 over a store already
holding section a on disk yields a file without section a — write_answers
overwrites wholesale instead of deep-merging, so the pre-existing section
is dropped. -/
theorem c1_counterexample :
    List.lookup "a" (write_answers [("b", [("y", PyVal.int 2)])]
        (some [("a", [("x", PyVal.int 1)])])).contents = Option.none ∧
    List.lookup "a" (load_answers (some [("a", [("x", PyVal.int 1)])]))
      = some [("x", PyVal.int 1)] := by
  decide

/-- Claim C1 amended: write_answers replaces the answer file wholesale with
exactly the given mapping — the result is independent of the previous disk
contents, sections and keys absent from the mapping are dropped, and the
file mode is set to 0o640; reading the file back yields exactly the
mapping.  Any read-modify-write merging is done by callers via
load_answers before calling write_answers. -/
theorem c1_write_answers_wholesale (answers : AnswerStore)
    (disk disk2 : Option AnswerStore) :
    (write_answers answers disk).contents = answers ∧
    write_answers answers disk = write_answers answers disk2 ∧
    (write_answers answers disk).mode = 0o640 ∧
    load_answers (some (write_answers answers disk).contents) = answers :=
  ⟨rfl, rfl, rfl, rfl⟩

/-- Claim C2 counterexample: in the configure runner a step whose is_skip
returns true but whose has_prompts returns true has its prompt invoked
before the skip check — prompting is not restricted to steps that were not
skipped. -/
theorem c2_counterexample :
    runConfigurePlan [{ name := "s", has_prompts := true, is_skip := true }]
      = ([Ev.prompted "s", Ev.skipChecked "s", Ev.skippedStep "s"],
         Option.none) ∧
    Ev.prompted "s" ∈ (runConfigurePlan
        [{ name := "s", has_prompts := true, is_skip := true }]).1 := by
  decide

/-- Claim C2 amended: for every step whose is_skip returns true, the runner
reports the step as skipped and advances to the next step without invoking
that step's run; however the configure runner invokes prompt (when
has_prompts is true) before the skip check, so a skipped step's prompt may
still be invoked; the bootstrap runner never invokes prompt at all. -/
theorem c2_skipped_step_never_runs (s : PlanStep) (rest : List PlanStep)
    (h : s.is_skip = true) :
    runConfigurePlan (s :: rest)
      = ((if s.has_prompts then [Ev.prompted s.name] else [])
          ++ Ev.skipChecked s.name :: Ev.skippedStep s.name
          :: (runConfigurePlan rest).1, (runConfigurePlan rest).2) ∧
    runBootstrapPlan (s :: rest)
      = (Ev.skipChecked s.name :: Ev.skippedStep s.name
          :: (runBootstrapPlan rest).1, (runBootstrapPlan rest).2) := by
  constructor <;> simp [runConfigurePlan, runBootstrapPlan, h]

/-- Witness for the amended C2 theorem: a concrete skipped step followed by
a concrete second step. -/
theorem c2_skipped_step_never_runs_witness :
    runConfigurePlan [{ name := "s1", is_skip := true }, { name := "s2" }]
      = ([Ev.skipChecked "s1", Ev.skippedStep "s1", Ev.skipChecked "s2",
          Ev.ran "s2", Ev.completedStep "s2"], Option.none) :=
  ((c2_skipped_step_never_runs { name := "s1", is_skip := true }
      [{ name := "s2" }] rfl).1).trans (by decide)

/-- Claim C8: when a step's run returns a Failed result, both runners
report the failure with that result's message and stop: the right-hand
sides below do not depend on the remaining steps, so no later step's
skip-check, prompt, or run is ever invoked, and the plan outcome is the
failure message (the source raises click.ClickException with it, which
terminates the command with a non-zero exit). -/
theorem c8_failed_run_aborts_plan (s : PlanStep) (rest : List PlanStep)
    (hskip : s.is_skip = false)
    (hfail : s.run_result.result_type = ResultType.failed) :
    runConfigurePlan (s :: rest)
      = ((if s.has_prompts then [Ev.prompted s.name] else [])
          ++ [Ev.skipChecked s.name, Ev.ran s.name,
              Ev.failedStep s.name s.run_result.message],
         some s.run_result.message) ∧
    runBootstrapPlan (s :: rest)
      = ([Ev.skipChecked s.name, Ev.ran s.name,
          Ev.failedStep s.name s.run_result.message],
         some s.run_result.message) := by
  constructor <;> simp [runConfigurePlan, runBootstrapPlan, hskip, hfail]

/-- Witness for C8: a plan whose first remaining step fails never reaches
the following step. -/
theorem c8_failed_run_aborts_plan_witness :
    runConfigurePlan
      [{ name := "s2",
         run_result := { result_type := ResultType.failed,
                         message := "boom" } },
       { name := "s3" }]
      = ([Ev.skipChecked "s2", Ev.ran "s2", Ev.failedStep "s2" "boom"],
         some "boom") :=
  ((c8_failed_run_aborts_plan
      { name := "s2",
        run_result := { result_type := ResultType.failed,
                        message := "boom" } }
      [{ name := "s3" }] rfl rfl).1).trans (by decide)

/-- Claim C5 (code bug evidence): with a current identity configuration
whose user_domain_name is service_domain and an action result whose
user-domain-name is users_domain (all other declared fields already
matching), is_skip stages the new value into the username field and leaves
user_domain_name unchanged, instead of staging it into the same field as
the specification requires; the analogous project-domain-name branch
assigns to project_name. -/
theorem c5_wrong_field_staged :
    identityIsSkip
      { auth_url := some "http://ks:5000", username := some "nova",
        password := some "pw", user_domain_name := some "service_domain",
        project_name := some "services",
        project_domain_name := some "service_domain",
        region_name := some "RegionOne" }
      (fun k => List.lookup k
        [("public-endpoint", "http://ks:5000"), ("username", "nova"),
         ("password", "pw"), ("user-domain-name", "users_domain"),
         ("project-name", "services"),
         ("project-domain-name", "service_domain"),
         ("region", "RegionOne")])
      = ({ auth_url := some "http://ks:5000",
           username := some "users_domain", password := some "pw",
           user_domain_name := some "service_domain",
           project_name := some "services",
           project_domain_name := some "service_domain",
           region_name := some "RegionOne" }, false) := by
  decide

/-- Claim C6 counterexample: an action result with return-code 2 — greater
than zero, so an action failure — does not make run fail: the guard only
fires on return-code 1 (or a missing key), so the staged configuration is
applied and run returns Completed. -/
theorem c6_counterexample :
    ohvRun [some 2] Option.none
      = (true, { result_type := ResultType.completed, message := "" }) := by
  decide

/-- Claim C6 amended: if any collected action result carries return-code
equal to 1, or lacks the key (read with default 1), run returns a Failed
result with the generic message immediately and the staged configuration
is not applied; return-codes greater than 1 do not trigger this path. -/
theorem c6_return_code_one_fails (rcs : List (Option Int))
    (applyExc : Option String) (rc : Option Int) (hmem : rc ∈ rcs)
    (h1 : rc.getD 1 = 1) :
    ohvRun rcs applyExc
      = (false, { result_type := ResultType.failed,
                  message := "Juju action returned error" }) := by
  have hch : checkActionResults rcs = true := by
    induction rcs with
    | nil => exact absurd hmem (List.not_mem_nil rc)
    | cons a t ih =>
      by_cases ha : a.getD 1 = 1
      · simp [checkActionResults, ha]
      · rcases List.mem_cons.mp hmem with h | h
        · rw [h] at h1; exact absurd h1 ha
        · simp [checkActionResults, ha, ih h]
  simp [ohvRun, hch]

/-- Witness for the amended C6 theorem at a concrete action-result list. -/
theorem c6_return_code_one_fails_witness :
    ohvRun [some 0, some 1] Option.none
      = (false, { result_type := ResultType.failed,
                  message := "Juju action returned error" }) :=
  c6_return_code_one_fails [some 0, some 1] Option.none (some 1)
    (by simp) (by decide)

/-- Claim C9 counterexample: in the rabbitmq diff, a target url holding the
empty string while the source returns no url — both values empty or None —
is treated as drift: the comparison is plain equality, so the step is
marked not-skippable and the None is staged. -/
theorem c9_counterexample :
    rabbitIsSkip { url := some "" } (fun _ => Option.none)
      = ({ url := Option.none }, false) := by
  decide

/-- Claim C9 amended: a declared field whose source value equals its
target value — in particular when both are None — is treated as converged
and never clears the skip flag on its own; the comparison is plain value
equality, so an empty string on one side against None on the other counts
as drift. -/
theorem c9_both_none_is_converged :
    (∀ (c : RabbitMQConfig) (ar : String → Option String),
      c.url = Option.none → ar "url" = Option.none →
      rabbitIsSkip c ar = (c, true)) ∧
    (∀ (st : NetworkTls × Bool) (ar : String → Option String) (a : String),
      tlsAttr st.1 a = Option.none → ar a = Option.none →
      tlsFieldStep ar a st = st) := by
  constructor
  · intro c ar hc har
    simp [rabbitIsSkip, hc, har]
  · intro st ar a hsnap hact
    simp [tlsFieldStep, hsnap, hact]

/-- Witness for the amended C9 theorem: both parts applied at concrete
both-None states. -/
theorem c9_both_none_is_converged_witness :
    rabbitIsSkip { url := Option.none } (fun _ => Option.none)
      = ({ url := Option.none }, true) ∧
    tlsFieldStep (fun _ => Option.none) "ovn_key"
        ({ ovn_key := Option.none, ovn_cert := some "c",
           ovn_cacert := some "d" }, true)
      = ({ ovn_key := Option.none, ovn_cert := some "c",
           ovn_cacert := some "d" }, true) :=
  ⟨c9_both_none_is_converged.1 _ _ rfl rfl,
   c9_both_none_is_converged.2 _ _ _ (by decide) rfl⟩

end Sunbeam
